import Mathlib

/-!
Shallow embedding of `src/benweb.py` (BenASK), the convention-driven HTTP
framework: multipart body parsing (`Request.read_body`), POST path resolution
with its two conventions (`SimpleWebFrameworkHandler.do_POST`), handler
invocation with the backward-compatibility retry, response normalization,
CORS header emission (`Response._send`, `do_OPTIONS`), the static API-doc
builder (`_discover_api_entries`, `build_api_spec`), and the admission
semaphore (`MAX_CONCURRENCY`, `_sema`).

Python dicts are embedded as ordered association lists (insertion order
preserved, assignment to an existing key replaces the value in place), machine
strings as Lean `String`, bytes as `List Nat`.  Behavior of external
collaborators (the handler routines themselves, `json.loads`, the module
importing machinery) is passed in as explicit function parameters so that the
framework code itself is what is being verified.
-/

/-- JSON values as handled by Python's `json` module; objects keep key order. -/
inductive Json where
  | null
  | bool (b : Bool)
  | num (n : Int)
  | str (s : String)
  | arr (elems : List Json)
  | obj (fields : List (String × Json))

/-- Python `k in d` for a dict embedded as an ordered association list. -/
def hasKey (kvs : List (String × Json)) (k : String) : Bool :=
  kvs.any (fun p => p.1 == k)

/-- Python `d[k]` (first binding; embedded dicts have unique keys). -/
def getKey (kvs : List (String × Json)) (k : String) : Option Json :=
  (kvs.find? (fun p => p.1 == k)).map (fun p => p.2)

/-- The test `'error' in result and isinstance(result['error'], dict)` from
`do_POST`'s dict-normalization branch (src/benweb.py line 658). -/
def errorIsDict (kvs : List (String × Json)) : Bool :=
  match getKey kvs "error" with
  | some (Json.obj _) => true
  | _ => false

/-- Membership of a key in a JSON object (false on non-objects). -/
def objHasKey (j : Json) (k : String) : Bool :=
  match j with
  | Json.obj kvs => hasKey kvs k
  | _ => false

/-- Python string truthiness for an optional string: `None` and `""` are falsy
(used by `if filename:` / `if field_name:` in `Request.read_body`). -/
def truthy : Option String → Bool
  | some s => s != ""
  | Option.none => false

/-- Character-list substring test, Python's `sub in s` (used for `".."`). -/
def hasSubList (pat : List Char) : List Char → Bool
  | [] => pat.isEmpty
  | c :: rest => pat.isPrefixOf (c :: rest) || hasSubList pat rest

/-- Python `path.lstrip("/")`: drop every leading slash. -/
def lstrip_slash (s : String) : String :=
  ⟨s.toList.dropWhile (fun c => c == '/')⟩

/-- Python `".." in safe_path`. -/
def contains_dotdot (s : String) : Bool :=
  hasSubList ['.', '.'] s.toList

/-- Python `safe_path.replace("/", ".")` (both arguments are single chars). -/
def slash_to_dot (s : String) : String :=
  ⟨s.toList.map (fun c => if c == '/' then '.' else c)⟩

/-- Split a character list on a separator, Python `s.split(sep)` for a
one-character separator (empty groups kept, as in Python). -/
def splitChar (sep : Char) (cs : List Char) : List (List Char) :=
  cs.foldr
    (fun c acc =>
      if c == sep then [] :: acc
      else
        match acc with
        | g :: gs => (c :: g) :: gs
        | [] => [[c]])
    [[]]

/-- Python `[seg for seg in safe_path.split("/") if seg]`. -/
def path_segments (s : String) : List String :=
  ((splitChar '/' s.toList).map (fun cs => (⟨cs⟩ : String))).filter (fun seg => seg != "")

/-!  Multipart form parsing: the per-part loop of `Request.read_body`
(src/benweb.py lines 72-112).  Payload decoding (charset handling) and the
`email` package's part splitting are external; a `MultipartPart` carries what
the loop reads from one parsed part. -/

/-- One parsed MIME part as the loop sees it: the `name` parameter extracted
from Content-Disposition, `part.get_filename()`, `part.get_content_type()`,
the decoded text used for form fields and the raw payload used for files. -/
structure MultipartPart where
  fieldName : Option String
  filename : Option String
  contentType : String
  decoded : String
  payload : List Nat

/-- Stored value for one form field: a single string, promoted to a list when
the field name repeats. -/
inductive FormVal where
  | single (v : String)
  | list (vs : List String)

/-- Stored value for one file field: `{filename, content_type, bytes}`. -/
structure FilePart where
  filename : String
  contentType : String
  payload : List Nat

/-- The two dicts filled by the multipart loop: `self.form` and `self.files`. -/
structure FormState where
  form : List (String × FormVal)
  files : List (String × FilePart)

/-- Python dict assignment `d[k] = v` on an ordered association list: replace
in place if the key is present, else append. -/
def setAssoc (k : String) (v : α) : List (String × α) → List (String × α)
  | [] => [(k, v)]
  | (k₁, v₁) :: rest => if k₁ = k then (k, v) :: rest else (k₁, v₁) :: setAssoc k v rest

/-- Python dict lookup `d.get(k)` on an ordered association list. -/
def lookupAssoc (k : String) : List (String × α) → Option α
  | [] => Option.none
  | (k₁, v₁) :: rest => if k₁ = k then some v₁ else lookupAssoc k rest

/-- The repeated-name promotion of `read_body` lines 104-112: no previous
value stores a single, a single is promoted to a two-element list, a list is
appended to in place. -/
def pushVal : Option FormVal → String → FormVal
  | some (FormVal.list vs), v => FormVal.list (vs ++ [v])
  | some (FormVal.single u), v => FormVal.list [u, v]
  | Option.none, v => FormVal.single v

/-- One iteration of the part loop (lines 89-112): a part with a truthy
filename and truthy field name stores a file entry (plain assignment, so a
repeat overwrites); a part with a truthy field name and no filename goes
through the form-field promotion; parts without a truthy field name are
dropped. -/
def stepPart (st : FormState) (p : MultipartPart) : FormState :=
  let name := p.fieldName.getD ""
  if truthy p.filename then
    if truthy p.fieldName then
      let entry : FilePart :=
        { filename := p.filename.getD "", contentType := p.contentType, payload := p.payload }
      { st with files := setAssoc name entry st.files }
    else st
  else
    if truthy p.fieldName then
      { st with form := setAssoc name (pushVal (lookupAssoc name st.form) p.decoded) st.form }
    else st

/-- The whole multipart loop over the parsed parts, starting from the empty
`self.form` / `self.files` dicts. -/
def read_body_parts (parts : List MultipartPart) : FormState :=
  parts.foldl stepPart { form := [], files := [] }

/-- Whether a part is stored as a form field named `k` by the loop. -/
def isFormFieldNamed (k : String) (p : MultipartPart) : Bool :=
  !(truthy p.filename) && truthy p.fieldName && (p.fieldName.getD "" == k)

/-- Whether a part is stored as a file field named `k` by the loop. -/
def isFilePartNamed (k : String) (p : MultipartPart) : Bool :=
  truthy p.filename && truthy p.fieldName && (p.fieldName.getD "" == k)

/-- The decoded values of all form-field parts named `k`, in body order. -/
def formValsOf (k : String) : List MultipartPart → List String
  | [] => []
  | p :: ps => if isFormFieldNamed k p then p.decoded :: formValsOf k ps else formValsOf k ps

/-- Expected stored shape for a run of values: absent, single, or list. -/
def valsShape : List String → Option FormVal
  | [] => Option.none
  | [v] => some (FormVal.single v)
  | v :: vs => some (FormVal.list (v :: vs))

/-- The file entry a part stores. -/
def fileOf (p : MultipartPart) : FilePart :=
  { filename := p.filename.getD "", contentType := p.contentType, payload := p.payload }

/-- Left-biased choice on options. -/
def firstSome : Option α → Option α → Option α
  | some a, _ => some a
  | Option.none, b => b

/-- The file entry stored for field `k` after the loop: the LAST file part
with that name (later parts overwrite earlier ones). -/
def lastFileOf (k : String) : List MultipartPart → Option FilePart
  | [] => Option.none
  | p :: ps =>
      firstSome (lastFileOf k ps)
        (if isFilePartNamed k p then some (fileOf p) else Option.none)

/-- Iterating `pushVal` over a run of values. -/
def extendShape : Option FormVal → List String → Option FormVal
  | o, [] => o
  | o, v :: vs => extendShape (some (pushVal o v)) vs

/-!  Responses.  `Response._send` (lines 129-141) writes Content-Type,
Content-Length and the three permissive CORS headers before the body.
Content-Length is the byte length of the body and is not modelled separately.
`send_response`'s automatic Server/Date headers are omitted: they are fixed
by the Python stdlib and are never CORS headers. -/

/-- Response payloads: a JSON value (`res.json`), plain text (`res.text`),
raw bytes (`res.bytes`), the stdlib HTML error page emitted by
`BaseHTTPRequestHandler.send_error`, or a bodyless response (`do_OPTIONS`). -/
inductive Body where
  | jsonBody (v : Json)
  | textBody (s : String)
  | bytesBody (bs : List Nat)
  | stdHtmlError (code : Nat) (message : String)
  | empty

/-- One HTTP response as written to the socket. -/
structure SentResponse where
  status : Nat
  headers : List (String × String)
  body : Body

/-- The CORS headers added by `Response._send` and `do_OPTIONS`. -/
def corsHeaders : List (String × String) :=
  [("Access-Control-Allow-Origin", "*"),
   ("Access-Control-Allow-Headers", "Content-Type, Authorization"),
   ("Access-Control-Allow-Methods", "GET, POST, OPTIONS")]

/-- `Response._send(status, body, content_type)`. -/
def mkSend (status : Nat) (contentType : String) (body : Body) : SentResponse :=
  { status := status,
    headers := ("Content-Type", contentType) :: corsHeaders,
    body := body }

/-- `Response.json(obj, status)`. -/
def res_json (v : Json) (status : Nat) : SentResponse :=
  mkSend status "application/json; charset=utf-8" (Body.jsonBody v)

/-- `Response.text(s)` with the default arguments. -/
def res_text (s : String) : SentResponse :=
  mkSend 200 "text/plain; charset=utf-8" (Body.textBody s)

/-- `Response.bytes(b)` with the default arguments. -/
def res_bytes (bs : List Nat) : SentResponse :=
  mkSend 200 "application/octet-stream" (Body.bytesBody bs)

/-- Python `None`-or-string rendered into JSON. -/
def jsonOfOptStr : Option String → Json
  | some s => Json.str s
  | Option.none => Json.null

/-- `send_error_json(handler, status, message, detail)` (lines 154-158); the
fresh `uuid` request id is passed in as `rid`. -/
def send_error_json (status : Nat) (message : String) (detail : Option String) (rid : String) : SentResponse :=
  res_json
    (Json.obj
      [("ok", Json.bool false),
       ("error", Json.obj
         [("code", Json.num (Int.ofNat status)),
          ("message", Json.str message),
          ("detail", jsonOfOptStr detail),
          ("request_id", Json.str rid)])])
    status

/-- `self.send_error(status, message)`: the stdlib HTML error response, which
carries no CORS headers (used at line 606). -/
def std_error (status : Nat) (message : String) : SentResponse :=
  { status := status,
    headers := [("Content-Type", "text/html;charset=utf-8"), ("Connection", "close")],
    body := Body.stdHtmlError status message }

/-- `do_OPTIONS` (lines 445-450): 204 with exactly the permissive headers. -/
def do_OPTIONS : SentResponse :=
  { status := 204, headers := corsHeaders, body := Body.empty }

/-- Does a sent response carry an Access-Control-Allow-Origin header at all? -/
def sent_has_cors (r : SentResponse) : Bool :=
  r.headers.any (fun h => h.1 == "Access-Control-Allow-Origin")

/-!  Handler invocation (lines 592-603 and 637-647).  A routine is a function
from the argument it is called with to what the call does: return a value,
raise `TypeError`, or raise some other exception.  A raised `TypeError` is
tagged with ghost information saying whether it came from the call binding
rejecting the `Request` argument (a signature mismatch) or was raised inside
the routine's body; the framework's `except TypeError:` cannot see the tag and
treats both alike, which is exactly what the tag lets the theorems express. -/

/-- What a handler routine is invoked with: the unified `Request` object, or
(on retry) just the decoded text body. -/
inductive CallArg where
  | unified
  | textArg (s : String)

/-- Python values a handler call can produce, as the normalization code
distinguishes them: a prebuilt `Response`, a dict, a list, bytes, a string,
`None`, or anything else (only its `str()` form matters). -/
inductive PyValue where
  | responseObj
  | dict (kvs : List (String × Json))
  | list (elems : List Json)
  | bytes (bs : List Nat)
  | str (s : String)
  | noneV
  | other (text : String)

/-- Outcome of one call into a routine. -/
inductive CallOutcome where
  | ok (v : PyValue)
  | typeError (fromSignatureMismatch : Bool)
  | otherError (msg : String)

/-- Result of the whole invocation block: a returned value, or a caught
exception that becomes the structured 500 error. -/
inductive InvokeOutcome where
  | returned (v : PyValue)
  | handlerError (msg : String)

/-- The nested try of lines 592-603: call with the unified request; on
`TypeError` (of either provenance) retry once with `req.text or ''`; any
exception escaping that (including a `TypeError` from the retry) is caught by
the outer handler and reported.  Also returns the list of calls made, in
order, so that theorems can talk about what was attempted. -/
def invokeWithRetry (f : CallArg → CallOutcome) (text : Option String) :
    List CallArg × InvokeOutcome :=
  match f CallArg.unified with
  | CallOutcome.ok v => ([CallArg.unified], InvokeOutcome.returned v)
  | CallOutcome.typeError _ =>
      let retryArg := CallArg.textArg (text.getD "")
      (match f retryArg with
       | CallOutcome.ok v => ([CallArg.unified, retryArg], InvokeOutcome.returned v)
       | CallOutcome.typeError _ => ([CallArg.unified, retryArg], InvokeOutcome.handlerError "TypeError")
       | CallOutcome.otherError m => ([CallArg.unified, retryArg], InvokeOutcome.handlerError m))
  | CallOutcome.otherError m => ([CallArg.unified], InvokeOutcome.handlerError m)

/-!  Return-value normalization (lines 652-680).  The string branch consumes
`json.loads(result)`; `loads` is passed in as a parameter standing for the
stdlib JSON parser (`Option.none` models a parse failure). -/

/-- Normalize a handler's return value into the response `do_POST` sends;
`Option.none` means the handler returned a prebuilt `Response` and the
framework sends nothing further. -/
def normalizeResult (loads : String → Option Json) (result : PyValue) : Option SentResponse :=
  match result with
  | PyValue.responseObj => Option.none
  | PyValue.dict kvs =>
      if hasKey kvs "ok" || errorIsDict kvs then
        some (res_json (Json.obj kvs) 200)
      else
        some (res_json (Json.obj [("ok", Json.bool true), ("data", Json.obj kvs)]) 200)
  | PyValue.list elems =>
      some (res_json (Json.obj [("ok", Json.bool true), ("data", Json.arr elems)]) 200)
  | PyValue.bytes bs => some (res_bytes bs)
  | PyValue.str s =>
      (match loads s with
       | some parsed =>
           (match parsed with
            | Json.obj kvs =>
                if hasKey kvs "ok" || hasKey kvs "error" then
                  some (res_json (Json.obj kvs) 200)
                else
                  some (res_json (Json.obj [("ok", Json.bool true), ("data", parsed)]) 200)
            | _ => some (res_json (Json.obj [("ok", Json.bool true), ("data", parsed)]) 200))
       | Option.none => some (res_text s))
  | PyValue.noneV => some (res_json (Json.obj [("ok", Json.bool true), ("data", Json.null)]) 200)
  | PyValue.other t => some (res_json (Json.obj [("ok", Json.bool true), ("data", Json.str t)]) 200)

/-!  POST resolution (`do_POST`, lines 537-680). -/

/-- Outcome of `importlib.import_module`: success, `ImportError`, or any
other exception raised while the module body runs. -/
inductive ImportOutcome where
  | ok
  | importError (msg : String)
  | otherError (msg : String)

/-- An importable module as `do_POST` probes it: its import outcome, which
attribute names are callable routines, and what calling each routine does. -/
structure PyModule where
  importResult : ImportOutcome
  hasCallable : String → Bool
  call : String → CallArg → CallOutcome

/-- The working tree and import machinery: whether `<safe_path>.py` exists as
a file, and the module reached under a dotted import name. -/
structure Env where
  isPyFile : String → Bool
  getModule : String → PyModule

/-- Which convention the resolver committed to for a request. -/
inductive ResolutionKind where
  | singleHandler (moduleName : String)
  | moduleFunction (modulePath funcName : String)

/-- What one modelled POST request consists of: the parsed URL path, the
declared Content-Length, and the decoded text body `req.text`. -/
structure PostInput where
  urlPath : String
  contentLength : Nat
  text : Option String

/-- Everything observable about one `do_POST` run: the response the framework
writes (`Option.none` when a prebuilt `Response` means the handler already
responded), whether the request body was read from the socket, which
convention was resolved, and the calls made into the routine (paired with the
routine's name). -/
structure PostOutcome where
  response : Option SentResponse
  bodyRead : Bool
  resolution : Option ResolutionKind
  handlerCalls : List (String × CallArg)

/-- The 64 MiB body cap (line 546). -/
def MAX_BODY : Nat := 64 * 1024 * 1024

/-- `do_POST`: the over-cap 413 is sent before the body is read; then the
body is read; then the empty-path 404, the `..` plain-text 400 (sent directly,
not through `Response`); then convention 1 (an exact `.py` file: import, on
success require a callable `handle_request`, else the stdlib 500), and
otherwise convention 2 (all-but-last segments name the module, the last names
the function; fewer than two segments or `ImportError` give 404). -/
def do_POST (env : Env) (loads : String → Option Json) (rid : String) (inp : PostInput) : PostOutcome :=
  let safePath := lstrip_slash inp.urlPath
  if inp.contentLength > MAX_BODY then
    { response := some (send_error_json 413 "Payload Too Large" (some "Body exceeds 64MB limit") rid),
      bodyRead := false, resolution := Option.none, handlerCalls := [] }
  else
    let bodyRead := decide (0 < inp.contentLength)
    if safePath = "" then
      { response := some (send_error_json 404 "Not Found" Option.none rid),
        bodyRead := bodyRead, resolution := Option.none, handlerCalls := [] }
    else if contains_dotdot safePath then
      { response := some
          { status := 400,
            headers := [("Content-Type", "text/plain; charset=utf-8")],
            body := Body.textBody "Bad Request" },
        bodyRead := bodyRead, resolution := Option.none, handlerCalls := [] }
    else if env.isPyFile safePath then
      let moduleName := slash_to_dot safePath
      let m := env.getModule moduleName
      match m.importResult with
      | ImportOutcome.importError msg =>
          { response := some (send_error_json 500 "Module Import Error" (some msg) rid),
            bodyRead := bodyRead,
            resolution := some (ResolutionKind.singleHandler moduleName), handlerCalls := [] }
      | ImportOutcome.otherError msg =>
          { response := some (send_error_json 500 "Module Import Error" (some msg) rid),
            bodyRead := bodyRead,
            resolution := some (ResolutionKind.singleHandler moduleName), handlerCalls := [] }
      | ImportOutcome.ok =>
          if m.hasCallable "handle_request" then
            let inv := invokeWithRetry (m.call "handle_request") inp.text
            let calls := inv.1.map (fun a => ("handle_request", a))
            match inv.2 with
            | InvokeOutcome.handlerError msg =>
                { response := some (send_error_json 500 "Error in handler" (some msg) rid),
                  bodyRead := bodyRead,
                  resolution := some (ResolutionKind.singleHandler moduleName), handlerCalls := calls }
            | InvokeOutcome.returned v =>
                { response := normalizeResult loads v,
                  bodyRead := bodyRead,
                  resolution := some (ResolutionKind.singleHandler moduleName), handlerCalls := calls }
          else
            { response := some (std_error 500 "No handle_request function in module"),
              bodyRead := bodyRead,
              resolution := some (ResolutionKind.singleHandler moduleName), handlerCalls := [] }
    else
      let segments := path_segments safePath
      if segments.length < 2 then
        { response := some (send_error_json 404 "Not Found" Option.none rid),
          bodyRead := bodyRead, resolution := Option.none, handlerCalls := [] }
      else
        let modulePath := String.intercalate "." segments.dropLast
        let funcName := segments.getLastD ""
        let m := env.getModule modulePath
        match m.importResult with
        | ImportOutcome.importError _ =>
            { response := some (send_error_json 404 "Not Found" Option.none rid),
              bodyRead := bodyRead,
              resolution := some (ResolutionKind.moduleFunction modulePath funcName), handlerCalls := [] }
        | ImportOutcome.otherError msg =>
            { response := some (send_error_json 500 "Module Import Error" (some msg) rid),
              bodyRead := bodyRead,
              resolution := some (ResolutionKind.moduleFunction modulePath funcName), handlerCalls := [] }
        | ImportOutcome.ok =>
            if m.hasCallable funcName then
              let inv := invokeWithRetry (m.call funcName) inp.text
              let calls := inv.1.map (fun a => (funcName, a))
              match inv.2 with
              | InvokeOutcome.handlerError msg =>
                  { response := some (send_error_json 500 "Error in handler function" (some msg) rid),
                    bodyRead := bodyRead,
                    resolution := some (ResolutionKind.moduleFunction modulePath funcName), handlerCalls := calls }
              | InvokeOutcome.returned v =>
                  { response := normalizeResult loads v,
                    bodyRead := bodyRead,
                    resolution := some (ResolutionKind.moduleFunction modulePath funcName), handlerCalls := calls }
            else
              { response := some (send_error_json 404 "Not Found" Option.none rid),
                bodyRead := bodyRead,
                resolution := some (ResolutionKind.moduleFunction modulePath funcName), handlerCalls := [] }

/-!  Static API-doc builder (`_discover_api_entries` lines 214-286 and
`build_api_spec` lines 288-323). -/

/-- One parsed docstring parameter (`name (type): description`). -/
structure ParamDoc where
  name : String
  type : String
  description : String

/-- A parsed docstring as `_parse_docstring` summarizes it. -/
structure DocMeta where
  summary : String
  description : String
  params : List ParamDoc

/-- One discovered endpoint; mirrors the records built at lines 253-276. -/
structure ApiEntry where
  path : String
  method : String
  summary : String
  description : String
  params : List ParamDoc
  source : String
  kind : String

/-- Python `a or b` for strings (module docs backfill an empty summary). -/
def orStr (a b : String) : String := if a = "" then b else a

/-- Python `api_base.rsplit("/", 1)[0] if "/" in api_base else ""`. -/
def parentOf (s : String) : String :=
  String.intercalate "/" (((splitChar '/' s.toList).map (fun cs => (⟨cs⟩ : String))).dropLast)

/-- The entry built for a routine named `handle_request` (lines 253-261). -/
def mk_handler_entry (apiBase : String) (meta modMeta : DocMeta) (source : String) : ApiEntry :=
  { path := apiBase, method := "POST",
    summary := orStr meta.summary modMeta.summary,
    description := orStr meta.description modMeta.description,
    params := meta.params, source := source, kind := "module-handler" }

/-- The entry built for any other top-level routine (lines 262-276). -/
def mk_function_entry (apiBase name : String) (meta : DocMeta) (source : String) : ApiEntry :=
  { path :=
      (let parent := parentOf apiBase
       if parent != "" then parent ++ "/" ++ name else "/" ++ name),
    method := "POST",
    summary := meta.summary, description := meta.description,
    params := meta.params, source := source, kind := "function" }

/-- The default request content types advertised by `build_api_spec`. -/
def default_content_types : List String :=
  ["application/json", "text/plain", "application/x-www-form-urlencoded", "multipart/form-data"]

/-- The per-path per-method object `build_api_spec` stores for one discovered
entry (lines 301-313): exactly these keys are written. -/
def build_path_entry (e : ApiEntry) : Json :=
  Json.obj
    [("summary", Json.str e.summary),
     ("description", Json.str e.description),
     ("requestBody", Json.obj
       [("content", Json.obj
         (default_content_types.map
           (fun ct => (ct, Json.obj [("schema", Json.obj [("type", Json.str "object")])]))))]),
     ("responses", Json.obj
       [("200", Json.obj [("description", Json.str "OK")]),
        ("500", Json.obj [("description", Json.str "Server Error")])]),
     ("x-source", Json.str e.source),
     ("x-kind", Json.str e.kind)]

/-- The keys of a JSON object, in order. -/
def entryKeys (j : Json) : List String :=
  match j with
  | Json.obj kvs => kvs.map (fun p => p.1)
  | _ => []

/-!  Concurrency governor. -/

/-- `MAX_CONCURRENCY = 32` (src/benweb.py line 23). -/
def MAX_CONCURRENCY : Nat := 32

/-- Modelled from the spec: the blocking acquire/release semantics of the
stdlib `threading.BoundedSemaphore(MAX_CONCURRENCY)` wrapped around
`handle_one_request` are not in `src/`; per the spec's token-pool description
a state counts how many requests hold a token (are inside the
body-parsing-through-response pipeline) and how many are blocked waiting for
one. -/
structure GovState where
  active : Nat
  waiting : Nat

/-- Modelled from the spec: admission-pool transitions.  A connection can
always arrive and start waiting (acceptance is not gated); a waiting request
is admitted only when a token is free (`active < MAX_CONCURRENCY`); a running
request finishes and releases its token.  There is no transition that drops a
waiting request: saturation only delays. -/
inductive GovStep : GovState → GovState → Prop where
  | arrive (s : GovState) :
      GovStep s { active := s.active, waiting := s.waiting + 1 }
  | grant (s : GovState) (h : s.active < MAX_CONCURRENCY) (hw : 0 < s.waiting) :
      GovStep s { active := s.active + 1, waiting := s.waiting - 1 }
  | complete (s : GovState) (h : 0 < s.active) :
      GovStep s { active := s.active - 1, waiting := s.waiting }

/-- States reachable from the idle server. -/
inductive GovReachable : GovState → Prop where
  | init : GovReachable { active := 0, waiting := 0 }
  | step {s t : GovState} : GovReachable s → GovStep s t → GovReachable t

/-!  Concrete fixtures used by witnesses and counterexamples. -/

/-- A working tree with no python units and a failing import machinery. -/
def env_empty : Env :=
  { isPyFile := fun _ => false,
    getModule := fun _ =>
      { importResult := ImportOutcome.importError "missing",
        hasCallable := fun _ => false,
        call := fun _ _ => CallOutcome.otherError "" } }

/-- A JSON parser that fails on every string. -/
def loads_none : String → Option Json := fun _ => Option.none

/-- A tree holding exactly the single-handler unit `foo.py`, whose
`handle_request` returns a plain business dict. -/
def env_single : Env :=
  { isPyFile := fun p => p == "foo",
    getModule := fun _ =>
      { importResult := ImportOutcome.ok,
        hasCallable := fun n => n == "handle_request",
        call := fun _ _ => CallOutcome.ok (PyValue.dict [("x", Json.num 1)]) } }

/-- First of two file-upload parts sharing the field name `f`. -/
def cex_file_part1 : MultipartPart :=
  { fieldName := some "f", filename := some "a.txt", contentType := "text/plain",
    decoded := "", payload := [65] }

/-- Second file-upload part with the same field name `f`. -/
def cex_file_part2 : MultipartPart :=
  { fieldName := some "f", filename := some "b.txt", contentType := "text/plain",
    decoded := "", payload := [66] }

/-- A routine whose body raises `TypeError` when handed the unified request
(the ghost flag records that the exception is NOT a signature mismatch), and
which returns normally when handed a plain string. -/
def cex_body_typeerror : CallArg → CallOutcome := fun a =>
  match a with
  | CallArg.unified => CallOutcome.typeError false
  | CallArg.textArg _ => CallOutcome.ok (PyValue.str "ok")

/-- A legacy routine whose signature genuinely rejects the unified request
(ghost flag true) and accepts a plain string. -/
def cex_sig_typeerror : CallArg → CallOutcome := fun a =>
  match a with
  | CallArg.unified => CallOutcome.typeError true
  | CallArg.textArg _ => CallOutcome.ok (PyValue.str "ok")

/-- The literal text a handler would produce via `json.dumps` for the object
with a single string-valued `error` key. -/
def cex_err_str : String := "\x7b\"error\": \"msg\"\x7d"

/-- The fields of that object. -/
def cex_err_obj : List (String × Json) := [("error", Json.str "msg")]

/-- A JSON parser fixed on the one interesting string, standing for what
`json.loads` does to it. -/
def loads_err : String → Option Json := fun t =>
  if t = cex_err_str then some (Json.obj cex_err_obj) else Option.none

/-- A discovered routine `add` in unit `utils.py` with one documented
parameter, as `_discover_api_entries` records it. -/
def cex_doc_entry : ApiEntry :=
  mk_function_entry "/utils" "add"
    { summary := "Add two numbers.", description := "",
      params := [{ name := "x", type := "int", description := "first addend" }] }
    "utils.py"

/-!  Helper lemmas about the association-list dict operations, the multipart
loop and the invocation wrapper. -/

theorem lookupAssoc_setAssoc_self (k : String) (v : α) (l : List (String × α)) :
    lookupAssoc k (setAssoc k v l) = some v := by
  induction l with
  | nil => simp [setAssoc, lookupAssoc]
  | cons hd tl ih =>
      obtain ⟨k₁, v₁⟩ := hd
      by_cases h : k₁ = k
      · simp [setAssoc, lookupAssoc, h]
      · simp [setAssoc, lookupAssoc, h, ih]

theorem lookupAssoc_setAssoc_ne (j k : String) (v : α) (l : List (String × α)) (h : j ≠ k) :
    lookupAssoc j (setAssoc k v l) = lookupAssoc j l := by
  induction l with
  | nil => simp [setAssoc, lookupAssoc, Ne.symm h]
  | cons hd tl ih =>
      obtain ⟨k₁, v₁⟩ := hd
      by_cases hk : k₁ = k
      · subst hk
        simp [setAssoc, lookupAssoc, Ne.symm h]
      · by_cases hj : k₁ = j <;> simp [setAssoc, lookupAssoc, hk, hj, h, ih]

theorem stepPart_form_lookup (st : FormState) (p : MultipartPart) (k : String) :
    lookupAssoc k (stepPart st p).form =
      (if isFormFieldNamed k p then some (pushVal (lookupAssoc k st.form) p.decoded)
       else lookupAssoc k st.form) := by
  by_cases hf : truthy p.filename
  · by_cases hn : truthy p.fieldName <;>
      simp [stepPart, isFormFieldNamed, hf, hn]
  · by_cases hn : truthy p.fieldName
    · by_cases hk : p.fieldName.getD "" = k
      · simp [stepPart, isFormFieldNamed, hf, hn, hk, lookupAssoc_setAssoc_self]
      · simp [stepPart, isFormFieldNamed, hf, hn, hk,
          lookupAssoc_setAssoc_ne k (p.fieldName.getD "") _ st.form (fun hh => hk hh.symm)]
    · simp [stepPart, isFormFieldNamed, hf, hn]

theorem stepPart_files_lookup (st : FormState) (p : MultipartPart) (k : String) :
    lookupAssoc k (stepPart st p).files =
      (if isFilePartNamed k p then some (fileOf p) else lookupAssoc k st.files) := by
  by_cases hf : truthy p.filename
  · by_cases hn : truthy p.fieldName
    · by_cases hk : p.fieldName.getD "" = k
      · simp [stepPart, isFilePartNamed, fileOf, hf, hn, hk, lookupAssoc_setAssoc_self]
      · simp [stepPart, isFilePartNamed, hf, hn, hk,
          lookupAssoc_setAssoc_ne k (p.fieldName.getD "") _ st.files (fun hh => hk hh.symm)]
    · simp [stepPart, isFilePartNamed, hf, hn]
  · by_cases hn : truthy p.fieldName <;>
      simp [stepPart, isFilePartNamed, hf, hn]

theorem foldl_form_lookup (parts : List MultipartPart) :
    ∀ (st : FormState) (k : String),
      lookupAssoc k (parts.foldl stepPart st).form =
        extendShape (lookupAssoc k st.form) (formValsOf k parts) := by
  induction parts with
  | nil => intro st k; rfl
  | cons p ps ih =>
      intro st k
      rw [List.foldl_cons, ih (stepPart st p) k, stepPart_form_lookup]
      by_cases h : isFormFieldNamed k p <;> simp [h, formValsOf, extendShape]

theorem foldl_files_lookup (parts : List MultipartPart) :
    ∀ (st : FormState) (k : String),
      lookupAssoc k (parts.foldl stepPart st).files =
        firstSome (lastFileOf k parts) (lookupAssoc k st.files) := by
  induction parts with
  | nil => intro st k; rfl
  | cons p ps ih =>
      intro st k
      rw [List.foldl_cons, ih (stepPart st p) k, stepPart_files_lookup]
      by_cases h : isFilePartNamed k p <;>
        · simp only [lastFileOf, h, if_pos, if_neg]
          cases lastFileOf k ps <;> simp [firstSome]

theorem extendShape_list (us vs : List String) :
    extendShape (some (FormVal.list us)) vs = some (FormVal.list (us ++ vs)) := by
  induction vs generalizing us with
  | nil => simp [extendShape]
  | cons v vs ih => simp [extendShape, pushVal, ih]

theorem extendShape_none_eq (vs : List String) :
    extendShape Option.none vs = valsShape vs := by
  cases vs with
  | nil => rfl
  | cons v tl =>
      cases tl with
      | nil => rfl
      | cons w rest => simp [extendShape, pushVal, extendShape_list, valsShape]

theorem invokeWithRetry_calls (f : CallArg → CallOutcome) (t : Option String) :
    (invokeWithRetry f t).1 = [CallArg.unified] ∨
      (invokeWithRetry f t).1 = [CallArg.unified, CallArg.textArg (t.getD "")] := by
  rcases hu : f CallArg.unified with v | b | m
  · exact Or.inl (by simp [invokeWithRetry, hu])
  · rcases hr : f (CallArg.textArg (t.getD "")) with v | b2 | m <;>
      exact Or.inr (by simp [invokeWithRetry, hu, hr])
  · exact Or.inl (by simp [invokeWithRetry, hu])

theorem invokeWithRetry_first (f : CallArg → CallOutcome) (t : Option String) :
    (invokeWithRetry f t).1.head? = some CallArg.unified := by
  rcases invokeWithRetry_calls f t with h | h <;> simp [h]

/-!  Claim theorems. -/

/-- Claim C1: for every POST path whose exact `.py` unit exists, `do_POST`
commits to the single-handler convention against that unit — the resolution is
never `moduleFunction`, every call made names `handle_request`, and when the
unit imports and exposes a callable `handle_request` the first call passes the
unified request to it. -/
theorem c1_resolver_priority (env : Env) (loads : String → Option Json) (rid : String)
    (inp : PostInput)
    (hfile : env.isPyFile (lstrip_slash inp.urlPath) = true) :
    (∀ mp fn, (do_POST env loads rid inp).resolution ≠ some (ResolutionKind.moduleFunction mp fn))
    ∧ (∀ pr ∈ (do_POST env loads rid inp).handlerCalls, pr.1 = "handle_request")
    ∧ (¬ inp.contentLength > MAX_BODY →
       lstrip_slash inp.urlPath ≠ "" →
       contains_dotdot (lstrip_slash inp.urlPath) = false →
       (env.getModule (slash_to_dot (lstrip_slash inp.urlPath))).importResult = ImportOutcome.ok →
       (env.getModule (slash_to_dot (lstrip_slash inp.urlPath))).hasCallable "handle_request" = true →
       (do_POST env loads rid inp).resolution =
         some (ResolutionKind.singleHandler (slash_to_dot (lstrip_slash inp.urlPath)))
       ∧ (do_POST env loads rid inp).handlerCalls.head? =
           some ("handle_request", CallArg.unified)) := by
  by_cases hcap : inp.contentLength > MAX_BODY
  · refine ⟨?_, ?_, ?_⟩
    · intro mp fn; simp [do_POST, hcap]
    · intro pr hpr; simp [do_POST, hcap] at hpr
    · intro hcap2; exact absurd hcap hcap2
  · by_cases hsp : lstrip_slash inp.urlPath = ""
    · refine ⟨?_, ?_, ?_⟩
      · intro mp fn; simp [do_POST, hcap, hsp]
      · intro pr hpr; simp [do_POST, hcap, hsp] at hpr
      · intro _ hne; exact absurd hsp hne
    · by_cases hdot : contains_dotdot (lstrip_slash inp.urlPath) = true
      · refine ⟨?_, ?_, ?_⟩
        · intro mp fn; simp [do_POST, hcap, hsp, hdot]
        · intro pr hpr; simp [do_POST, hcap, hsp, hdot] at hpr
        · intro _ _ hdot2; rw [hdot] at hdot2; cases hdot2
      · have hdotf : contains_dotdot (lstrip_slash inp.urlPath) = false := by
          cases hd : contains_dotdot (lstrip_slash inp.urlPath)
          · rfl
          · exact absurd hd hdot
        rcases himp : (env.getModule (slash_to_dot (lstrip_slash inp.urlPath))).importResult with
          _ | msg | msg
        · by_cases hhc :
            (env.getModule (slash_to_dot (lstrip_slash inp.urlPath))).hasCallable "handle_request" = true
          · have hcalls := invokeWithRetry_calls
              ((env.getModule (slash_to_dot (lstrip_slash inp.urlPath))).call "handle_request")
              inp.text
            rcases hinv : (invokeWithRetry
                ((env.getModule (slash_to_dot (lstrip_slash inp.urlPath))).call "handle_request")
                inp.text).2 with v | m <;>
              rcases hcalls with hc | hc <;>
              · refine ⟨?_, ?_, ?_⟩
                · intro mp fn
                  simp [do_POST, hcap, hsp, hdotf, hfile, himp, hhc, hinv]
                · intro pr hpr
                  simp [do_POST, hcap, hsp, hdotf, hfile, himp, hhc, hinv, hc] at hpr
                  rcases hpr with rfl | rfl <;> rfl
                · intro _ _ _ _ _
                  constructor
                  · simp [do_POST, hcap, hsp, hdotf, hfile, himp, hhc, hinv]
                  · simp [do_POST, hcap, hsp, hdotf, hfile, himp, hhc, hinv, hc]
          · refine ⟨?_, ?_, ?_⟩
            · intro mp fn; simp [do_POST, hcap, hsp, hdotf, hfile, himp, hhc]
            · intro pr hpr; simp [do_POST, hcap, hsp, hdotf, hfile, himp, hhc] at hpr
            · intro _ _ _ _ hhc2; exact absurd hhc2 hhc
        · refine ⟨?_, ?_, ?_⟩
          · intro mp fn; simp [do_POST, hcap, hsp, hdotf, hfile, himp]
          · intro pr hpr; simp [do_POST, hcap, hsp, hdotf, hfile, himp] at hpr
          · intro _ _ _ himp2; cases himp2
        · refine ⟨?_, ?_, ?_⟩
          · intro mp fn; simp [do_POST, hcap, hsp, hdotf, hfile, himp]
          · intro pr hpr; simp [do_POST, hcap, hsp, hdotf, hfile, himp] at hpr
          · intro _ _ _ himp2; cases himp2

/-- Witness for C1: on the tree holding `foo.py` a POST to `/foo` resolves
single-handler and first calls `handle_request` with the unified request. -/
theorem c1_resolver_priority_witness :
    env_single.isPyFile (lstrip_slash "/foo") = true
    ∧ (do_POST env_single loads_none "r1"
        { urlPath := "/foo", contentLength := 0, text := Option.none }).resolution =
        some (ResolutionKind.singleHandler "foo")
    ∧ (do_POST env_single loads_none "r1"
        { urlPath := "/foo", contentLength := 0, text := Option.none }).handlerCalls.head? =
        some ("handle_request", CallArg.unified) := by
  have h := c1_resolver_priority env_single loads_none "r1"
    { urlPath := "/foo", contentLength := 0, text := Option.none } rfl
  have h3 := h.2.2 (by decide) (by decide) rfl rfl rfl
  exact ⟨rfl, h3.1, h3.2⟩

/-- Claim C2: a handler-returned dict with an `ok` key or a dict-valued
`error` key is serialized as JSON verbatim; any other dict, and every list,
is wrapped as the object with `ok: true` and the value under `data`. -/
theorem c2_envelope_coercion (loads : String → Option Json)
    (kvs : List (String × Json)) (elems : List Json) :
    ((hasKey kvs "ok" || errorIsDict kvs) = true →
      normalizeResult loads (PyValue.dict kvs) = some (res_json (Json.obj kvs) 200))
    ∧ ((hasKey kvs "ok" || errorIsDict kvs) = false →
      normalizeResult loads (PyValue.dict kvs) =
        some (res_json (Json.obj [("ok", Json.bool true), ("data", Json.obj kvs)]) 200))
    ∧ normalizeResult loads (PyValue.list elems) =
        some (res_json (Json.obj [("ok", Json.bool true), ("data", Json.arr elems)]) 200) := by
  refine ⟨fun h => ?_, fun h => ?_, rfl⟩ <;> simp [normalizeResult, h]

/-- Witness for C2 at the two concrete dicts of the spec's example. -/
theorem c2_envelope_coercion_witness :
    (hasKey [("ok", Json.bool false)] "ok" || errorIsDict [("ok", Json.bool false)]) = true
    ∧ normalizeResult loads_none (PyValue.dict [("ok", Json.bool false)]) =
        some (res_json (Json.obj [("ok", Json.bool false)]) 200)
    ∧ (hasKey [("x", Json.num 1)] "ok" || errorIsDict [("x", Json.num 1)]) = false
    ∧ normalizeResult loads_none (PyValue.dict [("x", Json.num 1)]) =
        some (res_json
          (Json.obj [("ok", Json.bool true), ("data", Json.obj [("x", Json.num 1)])]) 200) := by
  refine ⟨rfl, ?_, rfl, ?_⟩
  · exact (c2_envelope_coercion loads_none [("ok", Json.bool false)] []).1 rfl
  · exact (c2_envelope_coercion loads_none [("x", Json.num 1)] []).2.1 rfl

/-- Counterexample to C3: two file-upload parts that share the field name
`f`.  The claim says the stored value for a repeated name is promoted to a
list preserving first-seen order then appending; the code instead overwrites,
keeping only the LAST file (`a.txt`, byte 65, is gone), and stores nothing in
the form dict. -/
theorem c3_multipart_promotion_cex :
    (read_body_parts [cex_file_part1, cex_file_part2]).files =
      [("f", { filename := "b.txt", contentType := "text/plain", payload := [66] })]
    ∧ (read_body_parts [cex_file_part1, cex_file_part2]).form = [] :=
  ⟨rfl, rfl⟩

/-- Claim C3 amended: repeated NON-file field names are promoted to a list,
preserving first-seen order then appending (the stored form value for a name
is exactly the shape of the run of decoded values of its parts), while for
file-upload parts the stored value is the last file part with that name —
file parts are exempt from promotion and overwrite instead. -/
theorem c3_multipart_promotion_amended (parts : List MultipartPart) (k : String) :
    lookupAssoc k (read_body_parts parts).form = valsShape (formValsOf k parts)
    ∧ lookupAssoc k (read_body_parts parts).files = lastFileOf k parts := by
  constructor
  · exact (foldl_form_lookup parts { form := [], files := [] } k).trans
      (extendShape_none_eq (formValsOf k parts))
  · have h := foldl_files_lookup parts { form := [], files := [] } k
    rw [read_body_parts, h]
    cases lastFileOf k parts <;> rfl

/-- Counterexample to C4: a routine whose body raises `TypeError` while
handling the unified request (ghost flag `false`: not a signature rejection).
The claim says only a signature rejection triggers the retry and any other
failure is never retried, yet the code retries this one — the call list has
both the unified call and the text-only retry, and the retry's value is
returned. -/
theorem c4_retry_cex :
    cex_body_typeerror CallArg.unified = CallOutcome.typeError false
    ∧ invokeWithRetry cex_body_typeerror (some "body") =
        ([CallArg.unified, CallArg.textArg "body"], InvokeOutcome.returned (PyValue.str "ok")) :=
  ⟨rfl, rfl⟩

/-- Claim C4 amended: the invocation is retried exactly once, passing only the
decoded text body (empty string when it is absent), if and only if the first
call raises `TypeError` — whether that `TypeError` is the signature rejecting
the unified request or was raised inside the routine, since the code cannot
distinguish them; a first call that returns or raises any other exception is
never retried, the exception becoming the structured error outcome; and no
run ever makes more than the one retry. -/
theorem c4_retry_amended (f : CallArg → CallOutcome) (text : Option String) :
    (∀ v, f CallArg.unified = CallOutcome.ok v →
      invokeWithRetry f text = ([CallArg.unified], InvokeOutcome.returned v))
    ∧ (∀ b, f CallArg.unified = CallOutcome.typeError b →
      (invokeWithRetry f text).1 = [CallArg.unified, CallArg.textArg (text.getD "")])
    ∧ (∀ m, f CallArg.unified = CallOutcome.otherError m →
      invokeWithRetry f text = ([CallArg.unified], InvokeOutcome.handlerError m))
    ∧ ((invokeWithRetry f text).1 = [CallArg.unified] ∨
      (invokeWithRetry f text).1 = [CallArg.unified, CallArg.textArg (text.getD "")]) := by
  refine ⟨fun v h => ?_, fun b h => ?_, fun m h => ?_, invokeWithRetry_calls f text⟩
  · simp [invokeWithRetry, h]
  · rcases hr : f (CallArg.textArg (text.getD "")) with v2 | b2 | m2 <;>
      simp [invokeWithRetry, h, hr]
  · simp [invokeWithRetry, h]

/-- Witness for C4 (amended): a genuine signature-mismatch `TypeError` leads
to exactly one retry with the text body. -/
theorem c4_retry_amended_witness :
    cex_sig_typeerror CallArg.unified = CallOutcome.typeError true
    ∧ (invokeWithRetry cex_sig_typeerror (some "hello")).1 =
        [CallArg.unified, CallArg.textArg "hello"] :=
  ⟨rfl, (c4_retry_amended cex_sig_typeerror (some "hello")).2.1 true rfl⟩

/-- Counterexample to C5: the plain-text 400 that `do_POST` writes for a
traversal path (src/benweb.py lines 558-562) is sent directly, bypassing
`Response._send`; the response the framework sends carries no
Access-Control-Allow-Origin header at all. -/
theorem c5_cors_cex :
    (do_POST env_empty loads_none "rid"
      { urlPath := "/../x", contentLength := 0, text := Option.none }).response.map sent_has_cors =
      some false
    ∧ (do_POST env_empty loads_none "rid"
        { urlPath := "/../x", contentLength := 0, text := Option.none }).response =
      some { status := 400,
             headers := [("Content-Type", "text/plain; charset=utf-8")],
             body := Body.textBody "Bad Request" } :=
  ⟨rfl, rfl⟩

/-- Claim C5 amended: every response emitted through the `Response` helper
(`_send`, hence all `res.json` / `res.text` / `res.bytes` outputs including
every framework-synthesized JSON error) carries the permissive header
`Access-Control-Allow-Origin: *`, and every OPTIONS request is answered 204
with the same permissive headers; but responses written directly to the
socket — the plain-text 400 traversal rejection, the stdlib HTML 500 for a
unit lacking `handle_request`, and `do_GET`'s direct sends — carry no CORS
header. -/
theorem c5_cors_amended :
    (∀ (status : Nat) (ct : String) (b : Body),
      ("Access-Control-Allow-Origin", "*") ∈ (mkSend status ct b).headers
      ∧ sent_has_cors (mkSend status ct b) = true)
    ∧ do_OPTIONS.status = 204
    ∧ ("Access-Control-Allow-Origin", "*") ∈ do_OPTIONS.headers
    ∧ (∀ (status : Nat) (msg : String) (detail : Option String) (rid : String),
        sent_has_cors (send_error_json status msg detail rid) = true)
    ∧ (∀ (status : Nat) (msg : String), sent_has_cors (std_error status msg) = false) := by
  refine ⟨fun status ct b => ⟨?_, ?_⟩, rfl, ?_, fun _ _ _ _ => rfl, fun _ _ => rfl⟩
  · simp [mkSend, corsHeaders]
  · rfl
  · simp [do_OPTIONS, corsHeaders]

/-- Claim C6: the per-path per-method object exposed by `build_api_spec` —
evaluated here at a discovered routine carrying one documented parameter —
holds summary, description, source (`x-source`) and resolution kind
(`x-kind`), but drops the discovered parameter list entirely: there is no
`params`/`parameters` key, even though `_discover_api_entries` recorded the
parameters and the generated docs page tries to render `info.params`. -/
theorem c6_spec_entry_drops_params :
    cex_doc_entry.params.length = 1
    ∧ cex_doc_entry.path = "/add"
    ∧ entryKeys (build_path_entry cex_doc_entry) =
        ["summary", "description", "requestBody", "responses", "x-source", "x-kind"]
    ∧ objHasKey (build_path_entry cex_doc_entry) "params" = false
    ∧ objHasKey (build_path_entry cex_doc_entry) "parameters" = false
    ∧ objHasKey (build_path_entry cex_doc_entry) "summary" = true
    ∧ objHasKey (build_path_entry cex_doc_entry) "x-source" = true
    ∧ objHasKey (build_path_entry cex_doc_entry) "x-kind" = true :=
  ⟨rfl, rfl, rfl, rfl, rfl, rfl, rfl, rfl⟩

/-- Claim C7: under the guards (body within cap, nonempty path, no `..`):
an existing exact unit that imports but lacks a callable `handle_request`
gets the stdlib 500 configuration error; with no exact unit, a path of fewer
than two segments gets the 404 JSON error immediately; and with two or more
segments an `ImportError` on the module path (no such unit) also gets the
404 JSON error. -/
theorem c7_resolution_errors (env : Env) (loads : String → Option Json) (rid : String)
    (inp : PostInput)
    (hcap : ¬ inp.contentLength > MAX_BODY)
    (hne : lstrip_slash inp.urlPath ≠ "")
    (hdot : contains_dotdot (lstrip_slash inp.urlPath) = false) :
    (env.isPyFile (lstrip_slash inp.urlPath) = true →
      (env.getModule (slash_to_dot (lstrip_slash inp.urlPath))).importResult = ImportOutcome.ok →
      (env.getModule (slash_to_dot (lstrip_slash inp.urlPath))).hasCallable "handle_request" = false →
      (do_POST env loads rid inp).response =
        some (std_error 500 "No handle_request function in module"))
    ∧ (env.isPyFile (lstrip_slash inp.urlPath) = false →
      (path_segments (lstrip_slash inp.urlPath)).length < 2 →
      (do_POST env loads rid inp).response = some (send_error_json 404 "Not Found" Option.none rid))
    ∧ (env.isPyFile (lstrip_slash inp.urlPath) = false →
      ¬ (path_segments (lstrip_slash inp.urlPath)).length < 2 →
      ∀ msg,
        (env.getModule (String.intercalate "."
          (path_segments (lstrip_slash inp.urlPath)).dropLast)).importResult =
          ImportOutcome.importError msg →
        (do_POST env loads rid inp).response =
          some (send_error_json 404 "Not Found" Option.none rid)) := by
  refine ⟨fun hfile himp hhc => ?_, fun hfile hlen => ?_, fun hfile hlen msg himp => ?_⟩
  · simp [do_POST, hcap, hne, hdot, hfile, himp, hhc]
  · simp [do_POST, hcap, hne, hdot, hfile, hlen]
  · simp [do_POST, hcap, hne, hdot, hfile, hlen, himp]

/-- Witness for C7 at the one-segment path `/solo` over the empty tree. -/
theorem c7_resolution_errors_witness :
    env_empty.isPyFile (lstrip_slash "/solo") = false
    ∧ (path_segments (lstrip_slash "/solo")).length < 2
    ∧ (do_POST env_empty loads_none "r7"
        { urlPath := "/solo", contentLength := 0, text := Option.none }).response =
        some (send_error_json 404 "Not Found" Option.none "r7") := by
  have h := c7_resolution_errors env_empty loads_none "r7"
    { urlPath := "/solo", contentLength := 0, text := Option.none } (by decide) (by decide) rfl
  exact ⟨rfl, by decide, h.2.1 rfl (by decide)⟩

/-- Claim C8: a declared Content-Length above the 64 MiB cap is answered with
the 413 JSON error and the body is never read from the connection. -/
theorem c8_body_cap (env : Env) (loads : String → Option Json) (rid : String)
    (inp : PostInput) (h : inp.contentLength > MAX_BODY) :
    (do_POST env loads rid inp).response =
      some (send_error_json 413 "Payload Too Large" (some "Body exceeds 64MB limit") rid)
    ∧ (do_POST env loads rid inp).bodyRead = false := by
  constructor <;> simp [do_POST, h]

/-- Witness for C8 at one byte over the cap. -/
theorem c8_body_cap_witness :
    (67108865 : Nat) > MAX_BODY
    ∧ (do_POST env_empty loads_none "r8"
        { urlPath := "/x", contentLength := 67108865, text := Option.none }).bodyRead = false
    ∧ (do_POST env_empty loads_none "r8"
        { urlPath := "/x", contentLength := 67108865, text := Option.none }).response =
        some (send_error_json 413 "Payload Too Large" (some "Body exceeds 64MB limit") "r8") := by
  have h := c8_body_cap env_empty loads_none "r8"
    { urlPath := "/x", contentLength := 67108865, text := Option.none } (by decide)
  exact ⟨by decide, h.2, h.1⟩

/-- Invariant of the admission pool: no reachable state holds more than
`MAX_CONCURRENCY` tokens. -/
theorem govReachable_active_le (s : GovState) (hs : GovReachable s) :
    s.active ≤ MAX_CONCURRENCY := by
  induction hs with
  | init => exact Nat.zero_le _
  | step hr hst ih => cases hst <;> simp <;> omega

/-- Claim C9: in every reachable state at most 32 (`MAX_CONCURRENCY`)
requests are inside the gated pipeline, every step preserves that bound, and
the only transition that takes a waiting request out of the wait queue is an
admission, which requires a free token and raises the active count by one —
a saturated pool delays waiters and never drops one. -/
theorem c9_governor_bound (s : GovState) (hs : GovReachable s) :
    s.active ≤ MAX_CONCURRENCY
    ∧ (∀ t, GovStep s t → t.active ≤ MAX_CONCURRENCY)
    ∧ (∀ t, GovStep s t → t.waiting < s.waiting →
        s.active < MAX_CONCURRENCY ∧ t.active = s.active + 1) := by
  refine ⟨govReachable_active_le s hs, fun t ht => ?_, fun t ht hw => ?_⟩
  · have h := govReachable_active_le s hs
    cases ht <;> simp <;> omega
  · cases ht with
    | arrive => simp at hw
    | grant h hw2 => exact ⟨h, rfl⟩
    | complete h => simp at hw

/-- Witness for C9 at the idle initial state. -/
theorem c9_governor_bound_witness :
    GovReachable { active := 0, waiting := 0 }
    ∧ GovState.active { active := 0, waiting := 0 } ≤ MAX_CONCURRENCY :=
  ⟨GovReachable.init,
   (c9_governor_bound { active := 0, waiting := 0 } GovReachable.init).1⟩

/-- Claim C10: the asymmetry between the dict branch and the string branch of
normalization — a string parsing to an object with an `error` key of ANY type
is passed through verbatim, while the same object returned as a dict is
passed through only when the `error` value is itself a dict; so an object
whose `error` value is a string is wrapped when returned as a dict but passed
through when returned as its JSON text. -/
theorem c10_string_dict_asymmetry (loads : String → Option Json) (s : String)
    (kvs : List (String × Json))
    (hparse : loads s = some (Json.obj kvs))
    (herr : hasKey kvs "error" = true)
    (hok : hasKey kvs "ok" = false)
    (hnot : errorIsDict kvs = false) :
    normalizeResult loads (PyValue.str s) = some (res_json (Json.obj kvs) 200)
    ∧ normalizeResult loads (PyValue.dict kvs) =
        some (res_json (Json.obj [("ok", Json.bool true), ("data", Json.obj kvs)]) 200) := by
  constructor
  · simp [normalizeResult, hparse, herr]
  · simp [normalizeResult, hok, hnot]

/-- Witness for C10 at the object with the string-valued `error` key and its
JSON text. -/
theorem c10_string_dict_asymmetry_witness :
    loads_err cex_err_str = some (Json.obj cex_err_obj)
    ∧ normalizeResult loads_err (PyValue.str cex_err_str) =
        some (res_json (Json.obj cex_err_obj) 200)
    ∧ normalizeResult loads_err (PyValue.dict cex_err_obj) =
        some (res_json
          (Json.obj [("ok", Json.bool true), ("data", Json.obj cex_err_obj)]) 200) := by
  have h := c10_string_dict_asymmetry loads_err cex_err_str cex_err_obj (by rfl) rfl rfl rfl
  exact ⟨by rfl, h.1, h.2⟩
